import Mathlib

/-!
Shallow embedding of the token-verification core described by this
repository: the FastAPI dependency `current_user_claims` (JWKS key
resolution with `PyJWKClient` followed by `jwt.decode` claim validation),
the `require_roles` authorization dependency, and the root route component
of the React application (`src/routes/__root.tsx`).

The repository contains the calling code (`current_user_claims`,
`get_jwks_client`, `require_roles`, `ALGORITHMS`, and the root component);
the verification algorithm itself lives in the external PyJWT library, so
those parts are modelled from the specification's description of `verify`
and of the KeySet cache, and are marked `Modelled from the spec:` below.
-/

/-- A claim value: string, number, or list of strings (the value shapes
the spec's data model allows for a Claims mapping). -/
inductive ClaimValue where
  | str : String → ClaimValue
  | num : Int → ClaimValue
  | list : List String → ClaimValue
  deriving DecidableEq

/-- A Claims mapping from claim name to value. -/
abbrev Claims := List (String × ClaimValue)

/-- Claim lookup by name (Python dictionary access / `claims.get(k)`). -/
def getClaim (c : Claims) (k : String) : Option ClaimValue :=
  (c.find? (fun p => p.1 == k)).map (fun p => p.2)

/-- A numeric claim (`exp`, `iat`). -/
def getNum (c : Claims) (k : String) : Option Int :=
  match getClaim c k with
  | some (ClaimValue.num n) => some n
  | _ => none

/-- A string claim (`iss`, `sub`). -/
def getStr (c : Claims) (k : String) : Option String :=
  match getClaim c k with
  | some (ClaimValue.str s) => some s
  | _ => none

/-- An asymmetric signing key: key identifier plus key material
(abstracted to a natural number). -/
structure SigningKey where
  kid : String
  secret : Nat
  deriving DecidableEq

/-- A KeySet: mapping from key identifier to SigningKey. -/
abbrev KeySet := List SigningKey

/-- Key lookup by key identifier. -/
def lookupKey (ks : KeySet) (kid : String) : Option SigningKey :=
  ks.find? (fun k => k.kid == kid)

/-- A compact signed token: header fields (key id and declared algorithm),
payload claims, and signature (abstracted to a natural number). -/
structure Token where
  kid : String
  alg : String
  payload : Claims
  sig : Nat
  deriving DecidableEq

/-- Injective-enough code of a string, for the abstract signature model. -/
def strCode (s : String) : Nat :=
  s.data.foldl (fun a c => a * 256 + c.toNat + 1) 1

/-- Code of a claim value. -/
def valCode : ClaimValue → Nat
  | ClaimValue.str s => 3 * strCode s
  | ClaimValue.num n => 3 * n.natAbs + 1
  | ClaimValue.list l => 3 * (l.foldl (fun a s => a * 65536 + strCode s) 1) + 2

/-- Code of a full payload. -/
def payloadCode (c : Claims) : Nat :=
  c.foldl (fun a p => a * 1000003 + 17 * strCode p.1 + valCode p.2) 1

/-- Modelled from the spec: the cryptographic signing operation (the
actual RS256 signature lives in the external crypto library). A signature
is a function of the key material and of the signed header and payload. -/
def signToken (secret : Nat) (kid alg : String) (payload : Claims) : Nat :=
  secret * 2000003 + 31 * strCode kid + 37 * strCode alg + 41 * payloadCode payload

/-- Modelled from the spec: signature verification — the token's signature
must match what the resolved key would have produced over this token's
header and payload. -/
def signatureValid (key : SigningKey) (t : Token) : Bool :=
  t.sig == signToken key.secret t.kid t.alg t.payload

/-- The error taxonomy of the spec (section 7). -/
inductive Rejection where
  | UnknownKey
  | BadSignature
  | AlgorithmNotAllowed
  | IssuerMismatch
  | AudienceMismatch
  | Expired
  | NotYetValid
  | KeySetUnavailable
  | MalformedToken
  deriving DecidableEq

/-- Does the token's `aud` claim contain the expected audience?  A string
`aud` must equal it; a list `aud` must contain it. -/
def audMatches (c : Claims) (expected : String) : Bool :=
  match getClaim c "aud" with
  | some (ClaimValue.str s) => s == expected
  | some (ClaimValue.list l) => l.contains expected
  | _ => false

/-- Audience check as configured at the call site: `verify_aud` is set to
`AUDIENCE is not None`, so the audience is validated only when one is
configured. -/
def audOk (c : Claims) : Option String → Bool
  | none => true
  | some a => audMatches c a

/-- The `require` option of the source's `jwt.decode` call: the `exp`,
`iat`, `iss`, `sub` claims must all be present (with the types the later
checks need: numeric times, string issuer). -/
def requiredPresent (c : Claims) : Bool :=
  (getNum c "exp").isSome && (getNum c "iat").isSome &&
  (getStr c "iss").isSome && (getClaim c "sub").isSome

/-- Expiry must still be in the future when allowing the skew. -/
def expOk (c : Claims) (leeway now : Int) : Bool :=
  match getNum c "exp" with
  | some e => decide (now ≤ e + leeway)
  | none => false

/-- Issued-at must not be in the future beyond the allowance. -/
def iatOk (c : Claims) (leeway now : Int) : Bool :=
  match getNum c "iat" with
  | some i => decide (i ≤ now + leeway)
  | none => false

/-- Modelled from the spec: `jwt.decode` as invoked by
`current_user_claims` — verify the declared algorithm against the
explicit allow-list, verify the signature with the resolved key, require
the `exp`, `iat`, `iss`, `sub` claims (the `require` option in the
source), then validate issuer, audience (iff configured), expiry and
issued-at against the clock with the given skew allowance (`leeway`). -/
def decode (key : SigningKey) (t : Token) (algorithms : List String)
    (issuer : String) (audience : Option String) (leeway : Int) (now : Int) :
    Except Rejection Claims :=
  if ¬ algorithms.contains t.alg then Except.error Rejection.AlgorithmNotAllowed
  else if ¬ signatureValid key t then Except.error Rejection.BadSignature
  else if ¬ requiredPresent t.payload then Except.error Rejection.MalformedToken
  else if ¬ (getStr t.payload "iss" == some issuer) then
    Except.error Rejection.IssuerMismatch
  else if ¬ audOk t.payload audience then Except.error Rejection.AudienceMismatch
  else if ¬ expOk t.payload leeway now then Except.error Rejection.Expired
  else if ¬ iatOk t.payload leeway now then Except.error Rejection.NotYetValid
  else Except.ok t.payload

/-- The two failure modes of the JWKS client.  In PyJWT these are
`PyJWKClientError` exceptions, a family distinct from `InvalidTokenError`
(the source imports only `InvalidTokenError` for its handler). -/
inductive ClientFailure where
  | unknownKey
  | connectionError
  deriving DecidableEq

deriving instance DecidableEq for Except

/-- Result of resolving a signing key: the outcome, the key-set cache
after the call, and how many network fetches were performed. -/
structure FetchResult where
  result : Except ClientFailure SigningKey
  cache : KeySet
  fetchCount : Nat
  deriving DecidableEq

/-- Modelled from the spec: `PyJWKClient.get_signing_key_from_jwt` with
the process-wide cache returned by `get_jwks_client` (the `lru_cache`
in the source makes the client, hence its cache, process-wide).  Look the
key identifier up in the cached KeySet; on miss, refresh the KeySet from
the remote endpoint once (`remote = none` models a network failure, in
which case the cache is left unchanged — the failure is not cached);
on repeated miss after the refresh, fail with the unknown-key error. -/
def get_signing_key_from_jwt (cache : KeySet) (remote : Option KeySet)
    (kid : String) : FetchResult :=
  match lookupKey cache kid with
  | some key => ⟨Except.ok key, cache, 0⟩
  | none =>
    match remote with
    | none => ⟨Except.error ClientFailure.connectionError, cache, 1⟩
    | some fetched =>
      match lookupKey fetched kid with
      | some key => ⟨Except.ok key, fetched, 1⟩
      | none => ⟨Except.error ClientFailure.unknownKey, fetched, 1⟩

/-- The explicit algorithm allow-list of the source:
`ALGORITHMS = ["RS256"]`. -/
def ALGORITHMS : List String := ["RS256"]

/-- What the FastAPI dependency yields to its caller: verified claims, an
`HTTPException` with status 401 raised from the `except InvalidTokenError`
handler (carrying which validation error it stringifies), or an exception
that escapes the handler because it is not an `InvalidTokenError`. -/
inductive Outcome where
  | ok : Claims → Outcome
  | unauthorized : Rejection → Outcome
  | uncaught : ClientFailure → Outcome
  deriving DecidableEq

/-- Result of one verification call: the outcome, the key-set cache after
the call, and the number of network fetches performed. -/
structure VerifyResult where
  outcome : Outcome
  cache : KeySet
  fetchCount : Nat
  deriving DecidableEq

/-- The source's `current_user_claims` dependency: resolve the signing
key from the token via the JWKS client, then `jwt.decode` with
`algorithms=ALGORITHMS`, the configured issuer and audience, and no
leeway (the source passes none, so the skew allowance is zero).  A
decode failure (`InvalidTokenError`) is caught and re-raised as an
HTTP 401; a JWKS-client failure is not an `InvalidTokenError` and
escapes the handler. -/
def current_user_claims (issuer : String) (audience : Option String)
    (cache : KeySet) (remote : Option KeySet) (now : Int) (t : Token) :
    VerifyResult :=
  let fr := get_signing_key_from_jwt cache remote t.kid
  match fr.result with
  | Except.error e => ⟨Outcome.uncaught e, fr.cache, fr.fetchCount⟩
  | Except.ok key =>
    match decode key t ALGORITHMS issuer audience 0 now with
    | Except.ok payload => ⟨Outcome.ok payload, fr.cache, fr.fetchCount⟩
    | Except.error r => ⟨Outcome.unauthorized r, fr.cache, fr.fetchCount⟩

/-- What `require_roles`'s inner dependency does with the claims: return
them (authorized), raise HTTP 403 "forbidden", or raise a `TypeError`
(Python's `set()` applied to a non-iterable claim value). -/
inductive DepResult where
  | allowed : Claims → DepResult
  | forbidden : DepResult
  | typeError : DepResult
  deriving DecidableEq

/-- Python's `set(claims.get("roles", []))`: an absent claim defaults to
the empty set, a list becomes the set of its elements, a string becomes
the set of its characters (strings are iterable), a number raises
`TypeError`. -/
def pyRoleSet : Option ClaimValue → Option (List String)
  | none => some []
  | some (ClaimValue.list l) => some l
  | some (ClaimValue.str s) => some (s.data.map (fun c => String.mk [c]))
  | some (ClaimValue.num _) => none

/-- The source's `require_roles(*roles)` dependency body: build the user
role set from the `roles` claim and raise HTTP 403 unless it intersects
the required roles; on success return the claims unchanged.  It is a pure
function of the claims and the required set. -/
def require_roles (roles : List String) (claims : Claims) : DepResult :=
  match pyRoleSet (getClaim claims "roles") with
  | none => DepResult.typeError
  | some user_roles =>
    if (user_roles.filter (fun r => roles.contains r)).isEmpty then
      DepResult.forbidden
    else DepResult.allowed claims

/-- The props the root component passes to `ClerkProvider`. -/
structure ClerkProviderProps where
  publishableKey : String
  afterSignOutUrl : String
  signInUrl : String
  signUpUrl : String
  signInFallbackRedirectUrl : String
  signUpFallbackRedirectUrl : String
  deriving DecidableEq

/-- The rendered elements of the root route component. -/
inductive Element where
  | div : String → Element
  | clerkProvider : ClerkProviderProps → List Element → Element
  | navigationProgress : Element
  | outlet : Element
  | toaster : Nat → Element
  | reactQueryDevtools : Element
  | routerDevtools : Element

/-- JavaScript truthiness of `PUBLISHABLE_KEY`: an absent environment
value (`undefined`) and the empty string are falsy. -/
def jsTruthy : Option String → Bool
  | none => false
  | some s => !s.isEmpty

/-- The root route component of `src/routes/__root.tsx`: if
`PUBLISHABLE_KEY` is falsy, render only the fallback div; otherwise
render the whole tree inside a `ClerkProvider` configured with the key,
`/sign-in` and `/sign-up` URLs, with the outlet, toaster and (in
development mode) the devtools as children. -/
def rootComponent (publishableKey : Option String) (mode : String) : Element :=
  if !(jsTruthy publishableKey) then
    Element.div "Missing Clerk publishable key"
  else
    Element.clerkProvider
      { publishableKey := publishableKey.getD ""
        afterSignOutUrl := "/sign-in"
        signInUrl := "/sign-in"
        signUpUrl := "/sign-up"
        signInFallbackRedirectUrl := "/"
        signUpFallbackRedirectUrl := "/" }
      ([Element.navigationProgress, Element.outlet, Element.toaster 5000] ++
        (if mode == "development" then
          [Element.reactQueryDevtools, Element.routerDevtools]
        else []))

/-- A concrete signing key, for the end-to-end instances. -/
def sampleKey : SigningKey := ⟨"k1", 42⟩

/-- A concrete payload matching the spec's end-to-end scenario: subject
`user_123`, issuer `https://issuer.test`, audience `api`. -/
def samplePayload : Claims :=
  [("sub", ClaimValue.str "user_123"),
   ("iss", ClaimValue.str "https://issuer.test"),
   ("aud", ClaimValue.str "api"),
   ("exp", ClaimValue.num 2000),
   ("iat", ClaimValue.num 1000)]

/-- A token over `samplePayload`, validly signed by `sampleKey` with
`kid = k1` and `alg = RS256`. -/
def sampleToken : Token :=
  ⟨"k1", "RS256", samplePayload, signToken 42 "k1" "RS256" samplePayload⟩

/-- The same payload and key but a declared algorithm outside the
allow-list. -/
def badAlgToken : Token :=
  ⟨"k1", "HS256", samplePayload, signToken 42 "k1" "HS256" samplePayload⟩

/-- A payload whose expiry is one second before the clock value 1000
used in the clock-skew instances. -/
def skewPayload : Claims :=
  [("sub", ClaimValue.str "user_123"),
   ("iss", ClaimValue.str "https://issuer.test"),
   ("aud", ClaimValue.str "api"),
   ("exp", ClaimValue.num 999),
   ("iat", ClaimValue.num 900)]

/-- A validly signed token over `skewPayload`. -/
def skewToken : Token :=
  ⟨"k1", "RS256", skewPayload, signToken 42 "k1" "RS256" skewPayload⟩

theorem expOk_elim (c : Claims) (leeway now : Int) (h : expOk c leeway now = true) :
    ∃ e, getNum c "exp" = some e ∧ now ≤ e + leeway := by
  unfold expOk at h
  cases he : getNum c "exp" with
  | none => rw [he] at h; simp at h
  | some e => rw [he] at h; simp at h; exact ⟨e, rfl, h⟩

theorem expOk_intro (c : Claims) (leeway now : Int) (e : Int)
    (he : getNum c "exp" = some e) (h : now ≤ e + leeway) :
    expOk c leeway now = true := by
  unfold expOk; rw [he]; simpa

theorem iatOk_elim (c : Claims) (leeway now : Int) (h : iatOk c leeway now = true) :
    ∃ i, getNum c "iat" = some i ∧ i ≤ now + leeway := by
  unfold iatOk at h
  cases hi : getNum c "iat" with
  | none => rw [hi] at h; simp at h
  | some i => rw [hi] at h; simp at h; exact ⟨i, rfl, h⟩

theorem iatOk_intro (c : Claims) (leeway now : Int) (i : Int)
    (hi : getNum c "iat" = some i) (h : i ≤ now + leeway) :
    iatOk c leeway now = true := by
  unfold iatOk; rw [hi]; simpa

theorem getClaim_isSome_of_getStr (c : Claims) (k s : String)
    (h : getStr c k = some s) : (getClaim c k).isSome = true := by
  unfold getStr at h
  cases hg : getClaim c k with
  | none => rw [hg] at h; simp at h
  | some v => simp

theorem decode_eq_ok_iff (key : SigningKey) (t : Token) (algorithms : List String)
    (issuer : String) (audience : Option String) (leeway now : Int) (claims : Claims) :
    decode key t algorithms issuer audience leeway now = Except.ok claims ↔
      claims = t.payload ∧
      t.alg ∈ algorithms ∧
      signatureValid key t = true ∧
      requiredPresent t.payload = true ∧
      getStr t.payload "iss" = some issuer ∧
      audOk t.payload audience = true ∧
      expOk t.payload leeway now = true ∧
      iatOk t.payload leeway now = true := by
  unfold decode
  split_ifs with h1 h2 h3 h4 h5 h6 h7
  · simp only [beq_iff_eq] at h4
    simp at h1
    simp [h1, h2, h3, h4, h5, h6, h7]
    constructor
    · intro h; exact h.symm
    · intro h; exact h.symm
  all_goals simp_all [beq_iff_eq]

theorem get_signing_key_ok_lookup (cache : KeySet) (remote : Option KeySet)
    (kid : String) (key : SigningKey)
    (h : (get_signing_key_from_jwt cache remote kid).result = Except.ok key) :
    lookupKey (get_signing_key_from_jwt cache remote kid).cache kid = some key := by
  unfold get_signing_key_from_jwt at h ⊢
  cases hc : lookupKey cache kid with
  | some k => simp_all
  | none =>
    cases remote with
    | none => simp_all
    | some fetched =>
      cases hf : lookupKey fetched kid with
      | some k => simp_all
      | none => simp_all

/-- Claim C1: a Claims value is returned by `current_user_claims` only if
the token's signature validated against a SigningKey present in the
KeySet as cached after the call, and the token's issuer, audience and
expiry all satisfy the configured policy; the returned claims are the
token's payload. -/
theorem current_user_claims_ok_invariant
    (issuer : String) (audience : Option String) (cache : KeySet)
    (remote : Option KeySet) (now : Int) (t : Token)
    (claims : Claims) (cache' : KeySet) (n : Nat)
    (h : current_user_claims issuer audience cache remote now t =
      ⟨Outcome.ok claims, cache', n⟩) :
    claims = t.payload ∧
    (∃ key, lookupKey cache' t.kid = some key ∧ signatureValid key t = true) ∧
    getStr t.payload "iss" = some issuer ∧
    audOk t.payload audience = true ∧
    (∃ e, getNum t.payload "exp" = some e ∧ now ≤ e) ∧
    t.alg ∈ ALGORITHMS := by
  simp only [current_user_claims] at h
  cases hr : (get_signing_key_from_jwt cache remote t.kid).result with
  | error e => rw [hr] at h; simp at h
  | ok key =>
    rw [hr] at h
    simp only [] at h
    cases hd : decode key t ALGORITHMS issuer audience 0 now with
    | error r => rw [hd] at h; simp at h
    | ok payload =>
      rw [hd] at h
      simp only [VerifyResult.mk.injEq, Outcome.ok.injEq] at h
      obtain ⟨hpc, hcache, hn⟩ := h
      obtain ⟨hp, halg, hsig, hreq, hiss, haud, hexp, hiat⟩ :=
        (decode_eq_ok_iff key t ALGORITHMS issuer audience 0 now payload).mp hd
      obtain ⟨e, he, hle⟩ := expOk_elim t.payload 0 now hexp
      refine ⟨by rw [← hpc, hp], ⟨key, ?_, hsig⟩, hiss, haud, ⟨e, he, by omega⟩, halg⟩
      rw [← hcache]
      exact get_signing_key_ok_lookup cache remote t.kid key hr

theorem verify_ok_decode (issuer : String) (audience : Option String)
    (cache : KeySet) (remote : Option KeySet) (now : Int) (t : Token)
    (claims : Claims) (cache' : KeySet) (n : Nat)
    (h : current_user_claims issuer audience cache remote now t =
      ⟨Outcome.ok claims, cache', n⟩) :
    ∃ key, (get_signing_key_from_jwt cache remote t.kid).result = Except.ok key ∧
      decode key t ALGORITHMS issuer audience 0 now = Except.ok claims := by
  simp only [current_user_claims] at h
  cases hr : (get_signing_key_from_jwt cache remote t.kid).result with
  | error e => rw [hr] at h; simp at h
  | ok key =>
    rw [hr] at h
    simp only [] at h
    cases hd : decode key t ALGORITHMS issuer audience 0 now with
    | error r => rw [hd] at h; simp at h
    | ok payload =>
      rw [hd] at h
      simp only [VerifyResult.mk.injEq, Outcome.ok.injEq] at h
      exact ⟨key, rfl, by rw [hd, h.1]⟩

theorem decode_error_kinds (key : SigningKey) (t : Token) (algorithms : List String)
    (issuer : String) (audience : Option String) (leeway now : Int) (r : Rejection)
    (h : decode key t algorithms issuer audience leeway now = Except.error r) :
    r ≠ Rejection.KeySetUnavailable ∧ r ≠ Rejection.UnknownKey := by
  unfold decode at h
  split_ifs at h <;> (try simp_all) <;> (subst h; decide)

/-- Claim C2: for every validly signed, non-expired token whose issuer
equals the expected issuer and whose audience satisfies the configured
expected audience, verification succeeds and returns the full claims
mapping — the token's whole payload — including the subject claim the
token was signed with. -/
theorem verify_valid_token_succeeds
    (issuer : String) (audience : Option String) (cache : KeySet)
    (remote : Option KeySet) (now : Int) (t : Token) (key : SigningKey)
    (sub : String) (e i : Int)
    (hkey : lookupKey cache t.kid = some key)
    (hsig : signatureValid key t = true)
    (halg : t.alg ∈ ALGORITHMS)
    (hexp : getNum t.payload "exp" = some e) (he : now ≤ e)
    (hiat : getNum t.payload "iat" = some i) (hi : i ≤ now)
    (hiss : getStr t.payload "iss" = some issuer)
    (haud : audOk t.payload audience = true)
    (hsub : getStr t.payload "sub" = some sub) :
    current_user_claims issuer audience cache remote now t =
      ⟨Outcome.ok t.payload, cache, 0⟩ ∧
    getStr t.payload "sub" = some sub := by
  have hg : get_signing_key_from_jwt cache remote t.kid =
      ⟨Except.ok key, cache, 0⟩ := by
    simp [get_signing_key_from_jwt, hkey]
  have h1 := getClaim_isSome_of_getStr t.payload "sub" sub hsub
  have hreq : requiredPresent t.payload = true := by
    simp [requiredPresent, hexp, hiat, hiss, h1]
  have hd : decode key t ALGORITHMS issuer audience 0 now = Except.ok t.payload :=
    (decode_eq_ok_iff key t ALGORITHMS issuer audience 0 now t.payload).mpr
      ⟨rfl, halg, hsig, hreq, hiss, haud,
       expOk_intro t.payload 0 now e hexp (by omega),
       iatOk_intro t.payload 0 now i hiat (by omega)⟩
  exact ⟨by simp [current_user_claims, hg, hd], hsub⟩

/-- Claim C3: issuer and audience are validated against the configured
expectations — for an otherwise-valid token, a token issuer different
from the expected issuer is rejected with `IssuerMismatch`, and when an
expected audience is configured that the token's audience does not
contain (for instance after changing the expected audience), the token
is rejected with `AudienceMismatch`. -/
theorem verify_issuer_audience_mismatch
    (issuer : String) (audience : Option String) (cache : KeySet)
    (remote : Option KeySet) (now : Int) (t : Token) (key : SigningKey)
    (e i : Int) (sub : String)
    (hkey : lookupKey cache t.kid = some key)
    (hsig : signatureValid key t = true)
    (halg : ALGORITHMS.contains t.alg = true)
    (hexp : getNum t.payload "exp" = some e) (he : now ≤ e)
    (hiat : getNum t.payload "iat" = some i) (hi : i ≤ now)
    (hsub : getStr t.payload "sub" = some sub) :
    (∀ issVal, getStr t.payload "iss" = some issVal → issVal ≠ issuer →
      (current_user_claims issuer audience cache remote now t).outcome =
        Outcome.unauthorized Rejection.IssuerMismatch) ∧
    (∀ a, audience = some a → getStr t.payload "iss" = some issuer →
      audMatches t.payload a = false →
      (current_user_claims issuer audience cache remote now t).outcome =
        Outcome.unauthorized Rejection.AudienceMismatch) := by
  have hg : get_signing_key_from_jwt cache remote t.kid =
      ⟨Except.ok key, cache, 0⟩ := by
    simp [get_signing_key_from_jwt, hkey]
  have h1 := getClaim_isSome_of_getStr t.payload "sub" sub hsub
  have hmem : t.alg ∈ ALGORITHMS := by simpa using halg
  constructor
  · intro issVal hiss hne
    have hreq : requiredPresent t.payload = true := by
      simp [requiredPresent, hexp, hiat, hiss, h1]
    have hd : decode key t ALGORITHMS issuer audience 0 now =
        Except.error Rejection.IssuerMismatch := by
      unfold decode
      rw [hiss]
      simp [hmem, hsig, hreq, hne]
    simp [current_user_claims, hg, hd]
  · intro a ha hiss haudf
    subst ha
    have hreq : requiredPresent t.payload = true := by
      simp [requiredPresent, hexp, hiat, hiss, h1]
    have hd : decode key t ALGORITHMS issuer (some a) 0 now =
        Except.error Rejection.AudienceMismatch := by
      unfold decode
      rw [hiss]
      simp [hmem, hsig, hreq, audOk, haudf]
    simp [current_user_claims, hg, hd]

/-- Claim C4: the modelled `verify` honors the clock-skew allowance when
checking expiry.  For a token whose `exp` lies `s` seconds in the past:
with zero allowance and `s = 1` (indeed any `s ≥ 1`) the result is
`Expired`; with a 5-second allowance it verifies whenever `s ≤ 5` and is
`Expired` whenever `s > 5`. -/
theorem decode_honors_clock_skew
    (key : SigningKey) (t : Token) (algorithms : List String)
    (issuer : String) (audience : Option String) (now s : Int)
    (i : Int) (sub : String)
    (halg : t.alg ∈ algorithms)
    (hsig : signatureValid key t = true)
    (hexp : getNum t.payload "exp" = some (now - s))
    (hiat : getNum t.payload "iat" = some i) (hi : i ≤ now)
    (hiss : getStr t.payload "iss" = some issuer)
    (haud : audOk t.payload audience = true)
    (hsub : getStr t.payload "sub" = some sub) :
    (1 ≤ s → decode key t algorithms issuer audience 0 now =
      Except.error Rejection.Expired) ∧
    (s ≤ 5 → decode key t algorithms issuer audience 5 now =
      Except.ok t.payload) ∧
    (5 < s → decode key t algorithms issuer audience 5 now =
      Except.error Rejection.Expired) := by
  have h1 := getClaim_isSome_of_getStr t.payload "sub" sub hsub
  have hreq : requiredPresent t.payload = true := by
    simp [requiredPresent, hexp, hiat, hiss, h1]
  refine ⟨?_, ?_, ?_⟩
  · intro hs
    have hexpf : expOk t.payload 0 now = false := by
      unfold expOk
      rw [hexp]
      simp
      omega
    unfold decode
    rw [hiss]
    simp [halg, hsig, hreq, hexpf, audOk]
    exact haud
  · intro hs
    exact (decode_eq_ok_iff key t algorithms issuer audience 5 now t.payload).mpr
      ⟨rfl, halg, hsig, hreq, hiss, haud,
       expOk_intro t.payload 5 now (now - s) hexp (by omega),
       iatOk_intro t.payload 5 now i hiat (by omega)⟩
  · intro hs
    have hexpf : expOk t.payload 5 now = false := by
      unfold expOk
      rw [hexp]
      simp
      omega
    unfold decode
    rw [hiss]
    simp [halg, hsig, hreq, hexpf, audOk]
    exact haud

/-- Claim C5: the signature-verification algorithm actually used is drawn
from the explicit allow-list `ALGORITHMS` and never from the token's
declared algorithm field alone — a token declaring an algorithm outside
the allow-list is rejected with `AlgorithmNotAllowed`, and claims are
ever produced only for tokens whose declared algorithm is in the
allow-list. -/
theorem verify_algorithm_allow_list
    (issuer : String) (audience : Option String) (cache : KeySet)
    (remote : Option KeySet) (now : Int) (t : Token) (key : SigningKey)
    (hkey : lookupKey cache t.kid = some key) :
    (ALGORITHMS.contains t.alg = false →
      (current_user_claims issuer audience cache remote now t).outcome =
        Outcome.unauthorized Rejection.AlgorithmNotAllowed) ∧
    (∀ (cache₂ : KeySet) (remote₂ : Option KeySet) (claims : Claims)
        (cache' : KeySet) (n : Nat),
      current_user_claims issuer audience cache₂ remote₂ now t =
        ⟨Outcome.ok claims, cache', n⟩ →
      t.alg ∈ ALGORITHMS) := by
  constructor
  · intro halg
    have hg : get_signing_key_from_jwt cache remote t.kid =
        ⟨Except.ok key, cache, 0⟩ := by
      simp [get_signing_key_from_jwt, hkey]
    have hmem : ¬ t.alg ∈ ALGORITHMS := by simpa using halg
    have hd : decode key t ALGORITHMS issuer audience 0 now =
        Except.error Rejection.AlgorithmNotAllowed := by
      unfold decode
      simp [hmem]
    simp [current_user_claims, hg, hd]
  · intro cache₂ remote₂ claims cache' n h
    obtain ⟨key₂, _, hd⟩ :=
      verify_ok_decode issuer audience cache₂ remote₂ now t claims cache' n h
    exact ((decode_eq_ok_iff key₂ t ALGORITHMS issuer audience 0 now claims).mp hd).2.1

/-- Claim C6: when the token's key identifier misses the cached KeySet,
verification refreshes the KeySet from the remote endpoint exactly once
(never twice), and then either fails with the unknown-key error (key
still absent) or proceeds with the fetched key to a decode verdict. -/
theorem verify_refreshes_once_on_miss
    (issuer : String) (audience : Option String) (cache fetched : KeySet)
    (now : Int) (t : Token)
    (hmiss : lookupKey cache t.kid = none) :
    (current_user_claims issuer audience cache (some fetched) now t).fetchCount
      = 1 ∧
    (lookupKey fetched t.kid = none →
      (current_user_claims issuer audience cache (some fetched) now t).outcome =
        Outcome.uncaught ClientFailure.unknownKey) ∧
    (∀ key, lookupKey fetched t.kid = some key →
      (current_user_claims issuer audience cache (some fetched) now t).outcome =
        Outcome.ok t.payload ∨
      ∃ r, (current_user_claims issuer audience cache (some fetched) now t).outcome
        = Outcome.unauthorized r) := by
  refine ⟨?_, ?_, ?_⟩
  · cases hf : lookupKey fetched t.kid with
    | some key =>
      have hg : get_signing_key_from_jwt cache (some fetched) t.kid =
          ⟨Except.ok key, fetched, 1⟩ := by
        simp [get_signing_key_from_jwt, hmiss, hf]
      cases hd : decode key t ALGORITHMS issuer audience 0 now <;>
        simp [current_user_claims, hg, hd]
    | none =>
      have hg : get_signing_key_from_jwt cache (some fetched) t.kid =
          ⟨Except.error ClientFailure.unknownKey, fetched, 1⟩ := by
        simp [get_signing_key_from_jwt, hmiss, hf]
      simp [current_user_claims, hg]
  · intro hf
    have hg : get_signing_key_from_jwt cache (some fetched) t.kid =
        ⟨Except.error ClientFailure.unknownKey, fetched, 1⟩ := by
      simp [get_signing_key_from_jwt, hmiss, hf]
    simp [current_user_claims, hg]
  · intro key hf
    have hg : get_signing_key_from_jwt cache (some fetched) t.kid =
        ⟨Except.ok key, fetched, 1⟩ := by
      simp [get_signing_key_from_jwt, hmiss, hf]
    cases hd : decode key t ALGORITHMS issuer audience 0 now with
    | ok payload =>
      left
      have hp : payload = t.payload :=
        ((decode_eq_ok_iff key t ALGORITHMS issuer audience 0 now payload).mp hd).1
      rw [← hp]
      simp [current_user_claims, hg, hd]
    | error r =>
      right
      exact ⟨r, by simp [current_user_claims, hg, hd]⟩

/-- Claim C7 counterexample: at this concrete input the key identifier
misses the empty cache and the KeySet refresh hits a network failure.
The claim says this is reported as the typed `KeySetUnavailable`
rejection kind (and that every verification failure is typed, never
generic); instead the failure escapes the `except InvalidTokenError`
handler as a generic uncaught exception, and no typed rejection is
produced. -/
theorem network_failure_untyped_counterexample :
    (current_user_claims "https://issuer.test" (some "api") [] none 1500
      sampleToken).outcome = Outcome.uncaught ClientFailure.connectionError ∧
    ∀ r : Rejection,
      (current_user_claims "https://issuer.test" (some "api") [] none 1500
        sampleToken).outcome ≠ Outcome.unauthorized r := by
  have houtcome : (current_user_claims "https://issuer.test" (some "api") [] none
      1500 sampleToken).outcome = Outcome.uncaught ClientFailure.connectionError :=
    by decide
  refine ⟨houtcome, fun r h => ?_⟩
  rw [houtcome] at h
  exact Outcome.noConfusion h

/-- Claim C7 (amended): token-validation failures are reported through
the handler as typed 401 rejections whose kind is never
`KeySetUnavailable` or `UnknownKey`; a network failure while refreshing
the KeySet instead escapes the handler as a generic uncaught exception,
and it leaves the cached KeySet unchanged — the failure is not cached as
a permanent failure for subsequent requests. -/
theorem rejection_kinds_amended
    (issuer : String) (audience : Option String) (cache : KeySet)
    (remote : Option KeySet) (now : Int) (t : Token) :
    (∀ r, (current_user_claims issuer audience cache remote now t).outcome =
        Outcome.unauthorized r →
      r ≠ Rejection.KeySetUnavailable ∧ r ≠ Rejection.UnknownKey) ∧
    (lookupKey cache t.kid = none → remote = none →
      current_user_claims issuer audience cache remote now t =
        ⟨Outcome.uncaught ClientFailure.connectionError, cache, 1⟩) := by
  constructor
  · intro r h
    simp only [current_user_claims] at h
    cases hr : (get_signing_key_from_jwt cache remote t.kid).result with
    | error e => rw [hr] at h; simp at h
    | ok key =>
      rw [hr] at h
      simp only [] at h
      cases hd : decode key t ALGORITHMS issuer audience 0 now with
      | ok payload => rw [hd] at h; simp at h
      | error r₂ =>
        rw [hd] at h
        simp at h
        subst h
        exact decode_error_kinds key t ALGORITHMS issuer audience 0 now r₂ hd
  · intro hmiss hremote
    subst hremote
    have hg : get_signing_key_from_jwt cache none t.kid =
        ⟨Except.error ClientFailure.connectionError, cache, 1⟩ := by
      simp [get_signing_key_from_jwt, hmiss]
    simp [current_user_claims, hg]

/-- Claim C8: the authorization check of `require_roles` is a pure
function of the claims and the required set, succeeding (returning the
claims) exactly when the claims' role set has a non-empty intersection
with the required set; in particular with required set `{"admin"}` it
succeeds iff the role set contains `"admin"`, and fails on an empty or
disjoint role set. -/
theorem require_roles_intersects
    (claims : Claims) (roles user_roles : List String)
    (h : pyRoleSet (getClaim claims "roles") = some user_roles) :
    (require_roles roles claims = DepResult.allowed claims ↔
      ∃ r, r ∈ user_roles ∧ r ∈ roles) ∧
    (require_roles ["admin"] claims = DepResult.allowed claims ↔
      "admin" ∈ user_roles) := by
  have key : ∀ rs : List String,
      require_roles rs claims = DepResult.allowed claims ↔
        ∃ r, r ∈ user_roles ∧ r ∈ rs := by
    intro rs
    simp only [require_roles, h]
    cases hf : user_roles.filter (fun r => rs.contains r) with
    | nil =>
      simp
      intro r hr hrs
      have : r ∈ user_roles.filter (fun r => rs.contains r) := by
        simp [List.mem_filter, hr, hrs]
      rw [hf] at this
      cases this
    | cons x xs =>
      simp
      have : x ∈ user_roles.filter (fun r => rs.contains r) := by
        rw [hf]; exact List.mem_cons_self x xs
      rw [List.mem_filter] at this
      exact ⟨x, this.1, by simpa using this.2⟩
  refine ⟨key roles, ?_⟩
  rw [key ["admin"]]
  simp

/-- Claim C10: if the publishable key is absent or empty, the root route
component renders only the fallback element reading
"Missing Clerk publishable key" (which mounts neither the ClerkProvider
nor any child route); otherwise the whole route outlet renders inside a
ClerkProvider configured with that key and with `/sign-in` and
`/sign-up` as its sign-in and sign-up URLs. -/
theorem root_component_renders (key : Option String) (mode : String) :
    (jsTruthy key = false →
      rootComponent key mode = Element.div "Missing Clerk publishable key") ∧
    (∀ k, key = some k → jsTruthy key = true →
      ∃ rest, rootComponent key mode =
        Element.clerkProvider
          ⟨k, "/sign-in", "/sign-in", "/sign-up", "/", "/"⟩
          ([Element.navigationProgress, Element.outlet, Element.toaster 5000]
            ++ rest)) := by
  constructor
  · intro h
    simp [rootComponent, h]
  · intro k hk ht
    subst hk
    refine ⟨if mode == "development" then
        [Element.reactQueryDevtools, Element.routerDevtools] else [], ?_⟩
    simp [rootComponent, ht]

/-- Witness for C1 at the spec's end-to-end instance. -/
theorem current_user_claims_ok_invariant_witness :
    samplePayload = sampleToken.payload ∧
    (∃ key, lookupKey [sampleKey] sampleToken.kid = some key ∧
        signatureValid key sampleToken = true) ∧
    getStr sampleToken.payload "iss" = some "https://issuer.test" ∧
    audOk sampleToken.payload (some "api") = true ∧
    (∃ e, getNum sampleToken.payload "exp" = some e ∧ (1500 : Int) ≤ e) ∧
    sampleToken.alg ∈ ALGORITHMS :=
  current_user_claims_ok_invariant "https://issuer.test" (some "api") [sampleKey]
    none 1500 sampleToken samplePayload [sampleKey] 0 (by decide)

/-- Witness for C2: the valid sample token verifies and yields its
payload. -/
theorem verify_valid_token_succeeds_witness :
    current_user_claims "https://issuer.test" (some "api") [sampleKey] none 1500
      sampleToken = ⟨Outcome.ok sampleToken.payload, [sampleKey], 0⟩ ∧
    getStr sampleToken.payload "sub" = some "user_123" :=
  verify_valid_token_succeeds "https://issuer.test" (some "api") [sampleKey] none
    1500 sampleToken sampleKey "user_123" 2000 1000
    (by decide) (by decide) (by decide) (by decide) (by decide)
    (by decide) (by decide) (by decide) (by decide) (by decide)

/-- Witness for C3: changing the expected audience to "other" makes the
otherwise-valid sample token fail with AudienceMismatch. -/
theorem verify_issuer_audience_mismatch_witness :
    (current_user_claims "https://issuer.test" (some "other") [sampleKey] none
      1500 sampleToken).outcome = Outcome.unauthorized Rejection.AudienceMismatch :=
  (verify_issuer_audience_mismatch "https://issuer.test" (some "other") [sampleKey]
      none 1500 sampleToken sampleKey 2000 1000 "user_123"
      (by decide) (by decide) (by decide) (by decide) (by decide)
      (by decide) (by decide) (by decide)).2
    "other" rfl (by decide) (by decide)

/-- Witness for C4: the token expired one second ago is Expired with zero
allowance and verifies with a 5-second allowance. -/
theorem decode_honors_clock_skew_witness :
    decode sampleKey skewToken ALGORITHMS "https://issuer.test" (some "api") 0 1000
      = Except.error Rejection.Expired ∧
    decode sampleKey skewToken ALGORITHMS "https://issuer.test" (some "api") 5 1000
      = Except.ok skewToken.payload := by
  have h := decode_honors_clock_skew sampleKey skewToken ALGORITHMS
    "https://issuer.test" (some "api") 1000 1 900 "user_123"
    (by decide) (by decide) (by decide) (by decide) (by decide)
    (by decide) (by decide) (by decide)
  exact ⟨h.1 (by decide), h.2.1 (by decide)⟩

/-- Witness for C5: a token declaring HS256 is rejected with
AlgorithmNotAllowed. -/
theorem verify_algorithm_allow_list_witness :
    (current_user_claims "https://issuer.test" (some "api") [sampleKey] none 1500
      badAlgToken).outcome = Outcome.unauthorized Rejection.AlgorithmNotAllowed :=
  (verify_algorithm_allow_list "https://issuer.test" (some "api") [sampleKey] none
      1500 badAlgToken sampleKey (by decide)).1 (by decide)

/-- Witness for C6: on a cache miss with the key present remotely,
exactly one fetch happens and verification proceeds. -/
theorem verify_refreshes_once_on_miss_witness :
    (current_user_claims "https://issuer.test" (some "api") [] (some [sampleKey])
      1500 sampleToken).fetchCount = 1 ∧
    ((current_user_claims "https://issuer.test" (some "api") [] (some [sampleKey])
        1500 sampleToken).outcome = Outcome.ok sampleToken.payload ∨
      ∃ r, (current_user_claims "https://issuer.test" (some "api") []
        (some [sampleKey]) 1500 sampleToken).outcome = Outcome.unauthorized r) := by
  have h := verify_refreshes_once_on_miss "https://issuer.test" (some "api") []
    [sampleKey] 1500 sampleToken (by decide)
  exact ⟨h.1, h.2.2 sampleKey (by decide)⟩

/-- Witness for the amended C7: a refresh network failure escapes as a
generic uncaught exception and the cache is unchanged. -/
theorem rejection_kinds_amended_witness :
    current_user_claims "https://issuer.test" (some "api") [] none 1500 sampleToken
      = ⟨Outcome.uncaught ClientFailure.connectionError, [], 1⟩ :=
  (rejection_kinds_amended "https://issuer.test" (some "api") [] none 1500
    sampleToken).2 (by decide) rfl

/-- Witness for C8 with role set {admin, editor} and required {admin}. -/
theorem require_roles_intersects_witness :
    require_roles ["admin"] [("roles", ClaimValue.list ["admin", "editor"])] =
      DepResult.allowed [("roles", ClaimValue.list ["admin", "editor"])] ↔
      "admin" ∈ ["admin", "editor"] :=
  (require_roles_intersects [("roles", ClaimValue.list ["admin", "editor"])]
    ["admin"] ["admin", "editor"] (by decide)).2

/-- Witness for C10: missing key renders the fallback, a present key
renders the provider with the outlet inside. -/
theorem root_component_renders_witness :
    rootComponent none "production" = Element.div "Missing Clerk publishable key" ∧
    ∃ rest, rootComponent (some "pk_test_123") "production" =
      Element.clerkProvider
        ⟨"pk_test_123", "/sign-in", "/sign-in", "/sign-up", "/", "/"⟩
        ([Element.navigationProgress, Element.outlet, Element.toaster 5000]
          ++ rest) :=
  ⟨(root_component_renders none "production").1 rfl,
   (root_component_renders (some "pk_test_123") "production").2 "pk_test_123" rfl
     (by decide)⟩
